import Mathlib

/-!
Verification of the Linux SocketCAN interface driver
(`libraries/AP_HAL_Linux/CANSocketIface.cpp`).

The development shallowly embeds the driver: the frame codec, the software
filter bank, the TX scheduler / poll-write loop, the RX poll-read loop with
loopback reconciliation, the readiness `select` primitive and the down-status
latch.  OS interactions (socket reads/writes, the monotonic clock) are passed
in explicitly as environment values, one per loop iteration, so every
definition is executable.
-/

namespace CANSocket

/-- `AP_HAL::CANFrame::MaskExtID = 0x1FFFFFFF`: the 29-bit extended-id mask. -/
def MaskExtID : ℕ := 0x1FFFFFFF

/-- `AP_HAL::CANFrame::FlagEFF` (bit 31 of the logical id marks an extended frame). -/
def FlagEFF : ℕ := 2 ^ 31

/-- `AP_HAL::CANFrame::FlagRTR` (bit 30: remote transmission request). -/
def FlagRTR : ℕ := 2 ^ 30

/-- `AP_HAL::CANFrame::FlagERR` (bit 29: error frame). -/
def FlagERR : ℕ := 2 ^ 29

/-- Linux `CAN_EFF_FLAG` (bit 31 of the wire id). -/
def CAN_EFF_FLAG : ℕ := 2 ^ 31

/-- Linux `CAN_RTR_FLAG` (bit 30 of the wire id). -/
def CAN_RTR_FLAG : ℕ := 2 ^ 30

/-- Linux `CAN_ERR_FLAG` (bit 29 of the wire id). -/
def CAN_ERR_FLAG : ℕ := 2 ^ 29

/-- Linux `CAN_EFF_MASK = 0x1FFFFFFF`. -/
def CAN_EFF_MASK : ℕ := 0x1FFFFFFF

/-- Linux errno values used by the driver. -/
def EAGAIN : ℕ := 11

/-- `EWOULDBLOCK` equals `EAGAIN` on Linux. -/
def EWOULDBLOCK : ℕ := 11

/-- `ENOBUFS`. -/
def ENOBUFS : ℕ := 105

/-- `ENETDOWN`. -/
def ENETDOWN : ℕ := 100

/-- `ENODEV`. -/
def ENODEV : ℕ := 19

/-- `POLLERR` revents bit. -/
def POLLERR : ℕ := 8

/-- `POLLIN` events bit. -/
def POLLIN : ℕ := 1

/-- `POLLOUT` events bit. -/
def POLLOUT : ℕ := 4

/-- `AP_HAL::CANIface::Loopback` I/O flag.  Modelled from the spec: the flag
constants live in the AP_HAL header (not in src/); the spec lists the two
flags `{Loopback, AbortOnError}` as independent bits of the `CanIOFlags`
bitmask. -/
def LoopbackFlag : ℕ := 1

/-- `AP_HAL::CANIface::AbortOnError` I/O flag (see `LoopbackFlag`). -/
def AbortOnErrorFlag : ℕ := 2

/-- The logical CAN frame (`AP_HAL::CANFrame`) as the driver observes it: a
32-bit `id` carrying the 29-bit CAN id in bits 0..28 and the
error/remote/extended flags in bits 29/30/31, and the payload.  Modelled from
the spec: the frame type lives outside src/; per the spec only its observable
attributes matter and the payload is "significant only up to dlc", so the
payload is the list of its `dlc` significant bytes and `dlc` is its length. -/
structure CANFrame where
  id : ℕ
  data : List ℕ
  deriving DecidableEq

/-- `dlc` of a logical frame: the number of significant payload bytes. -/
def CANFrame.dlc (f : CANFrame) : ℕ := f.data.length

/-- `AP_HAL::CANFrame::isExtended()`: bit 31 of the id. -/
def CANFrame.isExtended (f : CANFrame) : Bool := f.id &&& FlagEFF != 0

/-- `AP_HAL::CANFrame::isErrorFrame()`: bit 29 of the id. -/
def CANFrame.isErrorFrame (f : CANFrame) : Bool := f.id &&& FlagERR != 0

/-- `AP_HAL::CANFrame::isRemoteTransmissionRequest()`: bit 30 of the id. -/
def CANFrame.isRemoteTransmissionRequest (f : CANFrame) : Bool := f.id &&& FlagRTR != 0

/-- The Linux `struct can_frame` wire form: flag-encoded 32-bit id, DLC, and
an 8-byte data array (modelled as a list of 8 byte values). -/
structure can_frame_t where
  can_id : ℕ
  can_dlc : ℕ
  data : List ℕ
  deriving DecidableEq

/-- `makeSocketCanFrame` (CANSocketIface.cpp lines 55-69): encode a logical
frame to the wire form.  The wire id is the id masked to 29 bits with the
EFF/ERR/RTR flag bits OR-ed in from the logical flags; exactly `dlc` payload
bytes are copied into the zero-initialized 8-byte array.  The source copies
into a fixed `can_frame` whose data array holds 8 bytes, so a `dlc` larger
than 8 has no wire image: that case is `none`. -/
def makeSocketCanFrame (f : CANFrame) : Option can_frame_t :=
  if 8 < f.data.length then none else
  let cid0 := f.id &&& MaskExtID
  let cid1 := if f.isExtended then cid0 ||| CAN_EFF_FLAG else cid0
  let cid2 := if f.isErrorFrame then cid1 ||| CAN_ERR_FLAG else cid1
  let cid3 := if f.isRemoteTransmissionRequest then cid2 ||| CAN_RTR_FLAG else cid2
  some ⟨cid3, f.data.length, f.data ++ List.replicate (8 - f.data.length) 0⟩

/-- `makeUavcanFrame` (CANSocketIface.cpp lines 71-84): decode a wire frame.
The logical frame is constructed from the wire id masked to 29 bits and the
`can_dlc` data bytes (the `AP_HAL::CANFrame` constructor is modelled from the
spec: "construct the frame from those bits and the DLC bytes"), then the
logical flag bits are OR-ed into the id from the wire flag bits. -/
def makeUavcanFrame (wf : can_frame_t) : CANFrame :=
  let f0 : CANFrame := ⟨wf.can_id &&& CAN_EFF_MASK, wf.data.take wf.can_dlc⟩
  let f1 := if wf.can_id &&& CAN_EFF_FLAG != 0 then { f0 with id := f0.id ||| FlagEFF } else f0
  let f2 := if wf.can_id &&& CAN_ERR_FLAG != 0 then { f1 with id := f1.id ||| FlagERR } else f1
  if wf.can_id &&& CAN_RTR_FLAG != 0 then { f2 with id := f2.id ||| FlagRTR } else f2

/-- A pending transmit item (`AP_HAL::CANIface::CanTxItem`): the frame, its
monotonic deadline, the enqueue sequence index and the option flags. -/
structure CanTxItem where
  frame : CANFrame
  loopback : Bool := false
  abort_on_error : Bool := false
  setup : Bool := false
  index : ℕ := 0
  deadline : ℕ := 0
  deriving DecidableEq

/-- A received item (`AP_HAL::CANIface::CanRxItem`): frame, monotonic receive
timestamp, and the `CanIOFlags` bits (Loopback when the frame is an echo). -/
structure CanRxItem where
  frame : CANFrame
  timestamp_us : ℕ := 0
  flags : ℕ := 0
  deriving DecidableEq

/-- Linux `struct can_filter`: wire-encoded id pattern and mask. -/
structure can_filter_t where
  can_id : ℕ
  can_mask : ℕ
  deriving DecidableEq

/-- `AP_HAL::CANIface::CanFilterConfig`: logical (id, mask) rule as handed to
`configureFilters`, flag bits embedded in `id`/`mask` as in `CANFrame.id`. -/
structure CanFilterConfig where
  id : ℕ
  mask : ℕ
  deriving DecidableEq

/-- The driver's counter bundle (`bus_stats` in the header, as printed by
`get_stats`). -/
structure CANStats where
  tx_requests : ℕ := 0
  tx_rejected : ℕ := 0
  tx_overflow : ℕ := 0
  tx_confirmed : ℕ := 0
  tx_success : ℕ := 0
  tx_timedout : ℕ := 0
  rx_received : ℕ := 0
  rx_errors : ℕ := 0
  num_downs : ℕ := 0
  num_rx_poll_req : ℕ := 0
  num_tx_poll_req : ℕ := 0
  num_poll_waits : ℕ := 0
  num_poll_tx_events : ℕ := 0
  num_poll_rx_events : ℕ := 0
  last_transmit_us : ℕ := 0
  deriving DecidableEq

/-- Modelled from the spec: the operating modes `{Normal, Silent, Filtered}`
(the enum lives in the AP_HAL header, not in src/). -/
inductive OperatingMode where
  | NormalMode
  | SilentMode
  | FilteredMode
  deriving DecidableEq

/-- The interface state: everything the driver mutates.  `pending_loopback_ids`
is modelled from the spec as a multiset of CAN ids (its container type is
declared in the header, not in src/; the spec calls it a "multiset of
CAN-ids").  The external event semaphore is modelled by an attachment flag and
a count of signals delivered to it. -/
structure IfaceState where
  fd : Int
  down : Bool
  mode : OperatingMode
  tx_queue : List CanTxItem
  rx_queue : List CanRxItem
  pending_loopback_ids : Multiset ℕ
  frames_in_socket_tx_queue : ℕ
  max_frames_in_socket_tx_queue : ℕ
  hw_filters_container : List can_filter_t
  tx_frame_counter : ℕ
  pollfd_fd : Int
  pollfd_events : ℕ
  sem_attached : Bool
  sem_signals : ℕ
  stats : CANStats
  deriving DecidableEq

/-- A freshly initialized interface: queues empty, no pending loopbacks, no
frames handed to the kernel, not down, zeroed counters. -/
def initState (fd : Int) (maxq : ℕ) (m : OperatingMode) : IfaceState where
  fd := fd
  down := false
  mode := m
  tx_queue := []
  rx_queue := []
  pending_loopback_ids := 0
  frames_in_socket_tx_queue := 0
  max_frames_in_socket_tx_queue := maxq
  hw_filters_container := []
  tx_frame_counter := 0
  pollfd_fd := -1
  pollfd_events := 0
  sem_attached := false
  sem_signals := 0
  stats := {}

/-- Rule conversion performed by `configureFilters` (lines 234-250): mask the
logical id/mask to 29 bits and OR in the wire EFF/RTR flag bits when the
corresponding logical flag bits are set. -/
def convertFilterConfig (fc : CanFilterConfig) : can_filter_t :=
  let cid0 := fc.id &&& MaskExtID
  let cm0 := fc.mask &&& MaskExtID
  let cid1 := if fc.id &&& FlagEFF != 0 then cid0 ||| CAN_EFF_FLAG else cid0
  let cid2 := if fc.id &&& FlagRTR != 0 then cid1 ||| CAN_RTR_FLAG else cid1
  let cm1 := if fc.mask &&& FlagEFF != 0 then cm0 ||| CAN_EFF_FLAG else cm0
  let cm2 := if fc.mask &&& FlagRTR != 0 then cm1 ||| CAN_RTR_FLAG else cm1
  ⟨cid2, cm2⟩

/-- `configureFilters` (lines 225-253): rejected for a null rule vector or
outside Filtered mode; otherwise replaces the rule container with the
converted rules and reports success. -/
def configureFilters (s : IfaceState) (filter_configs : Option (List CanFilterConfig)) :
    Bool × IfaceState :=
  match filter_configs with
  | none => (false, s)
  | some cfgs =>
    if s.mode ≠ OperatingMode.FilteredMode then (false, s)
    else (true, { s with hw_filters_container := cfgs.map convertFilterConfig })

/-- `_checkHWFilters` (lines 441-453): with a non-empty rule container accept
iff some rule satisfies `((can_id & mask) ^ id) == 0`; with no rules accept
everything. -/
def _checkHWFilters (filters : List can_filter_t) (frame : can_frame_t) : Bool :=
  if !filters.isEmpty then
    filters.any (fun fl => ((frame.can_id &&& fl.can_mask) ^^^ fl.can_id) == 0)
  else
    true

/-- The OS-level outcome of the `write(2)` call performed by `_write`: the
return value and the resulting `errno`. -/
structure WriteEvent where
  res : Int
  errno : ℕ
  deriving DecidableEq

/-- `_write` (lines 338-358): `-1` for a missing fd; `write` returning at most
zero maps to `0` (would-block) when `errno` is `ENOBUFS`/`EAGAIN`, otherwise
it is returned as the error; a short write (`res != sizeof(can_frame) = 16`)
is `-1`; a full write is `1`. -/
def _write (fd : Int) (ev : WriteEvent) : Int :=
  if fd < 0 then -1
  else if ev.res ≤ 0 then
    if ev.errno = ENOBUFS ∨ ev.errno = EAGAIN then 0 else ev.res
  else if ev.res ≠ 16 then -1
  else 1

/-- The OS-level outcome of the `recvmsg` call inside `_read`: either a
non-positive return with its `errno`, or a received wire datagram together
with the kernel's `MSG_CONFIRM` flag (the loopback marker). -/
inductive RecvEvent where
  | osRes (res : Int) (errno : ℕ)
  | osFrame (wf : can_frame_t) (confirm : Bool)
  deriving DecidableEq

/-- The three-valued result of `_read`: error (`< 0`), empty (`0`), or a
decoded frame with its loopback flag (`1`). -/
inductive ReadResult where
  | err
  | empty
  | got (frame : CANFrame) (loopback : Bool)
  deriving DecidableEq

/-- `_read` (lines 361-400): `-1` for a missing fd; a non-positive `recvmsg`
is empty when it is `EWOULDBLOCK` and otherwise the error itself (a zero
return is also treated as empty by the caller); on a received datagram the
loopback flag is the `MSG_CONFIRM` bit, non-loopback frames that fail the
software filter bank are reported as empty, and otherwise the decoded frame
is returned. -/
def _read (fd : Int) (filters : List can_filter_t) (ev : RecvEvent) : ReadResult :=
  if fd < 0 then .err
  else match ev with
    | .osRes res errno =>
      if res < 0 ∧ errno = EWOULDBLOCK then .empty
      else if res < 0 then .err
      else .empty
    | .osFrame wf confirm =>
      if !confirm && !_checkHWFilters filters wf then .empty
      else .got (makeUavcanFrame wf) confirm

/-- The environment of one poll-read iteration: the monotonic timestamp
sampled for the `CanRxItem` and the OS outcome of the `recvmsg` call. -/
structure ReadEnv where
  ts : ℕ
  ev : RecvEvent
  deriving DecidableEq

/-- `_confirmSentFrame` (lines 425-430): decrement
`_frames_in_socket_tx_queue` only when it is positive. -/
def _confirmSentFrame (s : IfaceState) : IfaceState :=
  if 0 < s.frames_in_socket_tx_queue then
    { s with frames_in_socket_tx_queue := s.frames_in_socket_tx_queue - 1 }
  else s

/-- `_incrementNumFramesInSocketTxQueue` (lines 420-423). -/
def _incrementNumFramesInSocketTxQueue (s : IfaceState) : IfaceState :=
  { s with frames_in_socket_tx_queue := s.frames_in_socket_tx_queue + 1 }

/-- `_wasInPendingLoopbackSet` (lines 432-439): if the id has a positive count
in the pending set, erase it (by key, removing every copy) and report true;
otherwise report false. -/
def _wasInPendingLoopbackSet (s : IfaceState) (frame : CANFrame) : Bool × IfaceState :=
  if 0 < s.pending_loopback_ids.count frame.id then
    (true, { s with pending_loopback_ids :=
               s.pending_loopback_ids.filter (fun i => i ≠ frame.id) })
  else (false, s)

/-- `_hasReadyTx` (lines 201-205). -/
def _hasReadyTx (s : IfaceState) : Bool :=
  !s.tx_queue.isEmpty &&
    decide (s.frames_in_socket_tx_queue < s.max_frames_in_socket_tx_queue)

/-- `_hasReadyRx` (lines 207-211). -/
def _hasReadyRx (s : IfaceState) : Bool :=
  !s.rx_queue.isEmpty

/-- One iteration of the `_pollRead` loop body (lines 309-333).  The second
component is `some b` when the loop returns `b` (a frame was accepted, or the
read came back empty / with an error), and `none` when the loop continues
(a loopback echo that was not pending). -/
def pollReadStep (s : IfaceState) (e : ReadEnv) : IfaceState × Option Bool :=
  match _read s.fd s.hw_filters_container e.ev with
  | .got fr loopback =>
    let rx : CanRxItem := { frame := fr, timestamp_us := e.ts, flags := 0 }
    if loopback then
      let s1 := _confirmSentFrame s
      let rx1 := { rx with flags := rx.flags ||| LoopbackFlag }
      let p := _wasInPendingLoopbackSet s1 fr
      let s3 := { p.2 with stats :=
        { p.2.stats with tx_confirmed := p.2.stats.tx_confirmed + 1 } }
      if p.1 then
        ({ s3 with rx_queue := s3.rx_queue ++ [rx1],
                   stats := { s3.stats with rx_received := s3.stats.rx_received + 1 } },
         some true)
      else (s3, none)
    else
      ({ s with rx_queue := s.rx_queue ++ [rx],
                stats := { s.stats with rx_received := s.stats.rx_received + 1 } },
       some true)
  | .empty => (s, some false)
  | .err =>
    ({ s with stats := { s.stats with rx_errors := s.stats.rx_errors + 1 } }, some false)

/-- The bounded `_pollRead` loop (lines 304-336): one `ReadEnv` per
iteration; the length of the environment list plays the role of
`CAN_MAX_POLL_ITERATIONS_COUNT` (a header constant not in src/). -/
def pollReadGo (s : IfaceState) : List ReadEnv → IfaceState × Bool
  | [] => (s, false)
  | e :: rest =>
    match pollReadStep s e with
    | (s1, some b) => (s1, b)
    | (s1, none) => pollReadGo s1 rest

/-- `_pollRead` driven by an explicit iteration environment. -/
def _pollRead (s : IfaceState) (renv : List ReadEnv) : IfaceState × Bool :=
  pollReadGo s renv

/-- One iteration of the `_pollWrite` loop body (lines 271-301), taking the
`AP_HAL::micros64()` sample and the `_write` result for this iteration.  The
`Bool` is false when the loop stops (queue empty, kernel queue full, or
would-block). -/
def pollWriteStep (s : IfaceState) (curr_time : ℕ) (res : Int) : IfaceState × Bool :=
  match s.tx_queue with
  | [] => (s, false)
  | tx :: rest =>
    if s.frames_in_socket_tx_queue < s.max_frames_in_socket_tx_queue then
      if curr_time ≤ tx.deadline then
        if res = 1 then
          let s1 := _incrementNumFramesInSocketTxQueue s
          let s2 := if tx.loopback then
              { s1 with pending_loopback_ids := tx.frame.id ::ₘ s1.pending_loopback_ids }
            else s1
          let st2 := { s2.stats with tx_success := s2.stats.tx_success + 1 }
          ({ s2 with tx_queue := rest,
                     stats := { st2 with last_transmit_us := curr_time } }, true)
        else if res = 0 then
          ({ s with stats := { s.stats with tx_overflow := s.stats.tx_overflow + 1 } },
           false)
        else
          ({ s with tx_queue := rest,
                    stats := { s.stats with tx_rejected := s.stats.tx_rejected + 1 } },
           true)
      else
        ({ s with tx_queue := rest,
                  stats := { s.stats with tx_timedout := s.stats.tx_timedout + 1 } },
         true)
    else (s, false)

/-- The `_pollWrite` loop: `env k` supplies the `micros64` sample and the OS
write outcome of iteration `k`; the fuel only needs to exceed the queue
length, since every continuing iteration pops one item. -/
def pollWriteGo (env : ℕ → ℕ × WriteEvent) : ℕ → ℕ → IfaceState → IfaceState
  | 0, _, s => s
  | fuel + 1, k, s =>
    let p := pollWriteStep s (env k).1 (_write s.fd (env k).2)
    if p.2 then pollWriteGo env fuel (k + 1) p.1 else p.1

/-- `_pollWrite` (lines 269-302). -/
def _pollWrite (env : ℕ → ℕ × WriteEvent) (s : IfaceState) : IfaceState :=
  pollWriteGo env (s.tx_queue.length + 1) 0 s

/-- Modelled from the spec: the TxItem priority order implemented by the
`CanTxItem` comparator in the header (not in src/): "lower CAN-id value wins
(CAN arbitration order); ties broken by lower sequence index (FIFO)". -/
def txItemHigherPriority (a b : CanTxItem) : Bool :=
  decide (a.frame.id < b.frame.id) ||
    (decide (a.frame.id = b.frame.id) && decide (a.index ≤ b.index))

/-- Priority-queue `emplace`: insert keeping the queue sorted, head first. -/
def txQueueInsert (x : CanTxItem) : List CanTxItem → List CanTxItem
  | [] => [x]
  | y :: ys => if txItemHigherPriority x y then x :: y :: ys else y :: txQueueInsert x ys

/-- `send` (lines 155-176): build the TxItem with the next sequence index and
the option flags, enqueue it, count the request, then run one read poll
followed by one write poll. -/
def send (s : IfaceState) (frame : CANFrame) (tx_deadline : ℕ) (flags : ℕ)
    (renv : List ReadEnv) (wenv : ℕ → ℕ × WriteEvent) : IfaceState :=
  let item : CanTxItem :=
    { frame := frame
      loopback := flags &&& LoopbackFlag != 0
      abort_on_error := flags &&& AbortOnErrorFlag != 0
      setup := true
      index := s.tx_frame_counter
      deadline := tx_deadline }
  let s1 := { s with tx_queue := txQueueInsert item s.tx_queue,
                     tx_frame_counter := s.tx_frame_counter + 1,
                     stats := { s.stats with tx_requests := s.stats.tx_requests + 1 } }
  let s2 := (_pollRead s1 renv).1
  _pollWrite wenv s2

/-- `receive` (lines 178-199): run one read poll if the queue is empty; if it
is still empty report no data; otherwise pop the head and signal the external
semaphore when one is attached. -/
def receive (s : IfaceState) (renv : List ReadEnv) : Option CanRxItem × IfaceState :=
  let s1 := if s.rx_queue.isEmpty then (_pollRead s renv).1 else s
  match s1.rx_queue with
  | [] => (none, s1)
  | rx :: rest =>
    let s2 := { s1 with rx_queue := rest }
    let s3 := if s2.sem_attached then { s2 with sem_signals := s2.sem_signals + 1 } else s2
    (some rx, s3)

/-- `_poll` (lines 213-223): read poll before write poll. -/
def _poll (s : IfaceState) (read wr : Bool) (renv : List ReadEnv)
    (wenv : ℕ → ℕ × WriteEvent) : IfaceState :=
  let s1 := if read then
      (_pollRead { s with stats :=
        { s.stats with num_poll_rx_events := s.stats.num_poll_rx_events + 1 } } renv).1
    else s
  if wr then
    _pollWrite wenv { s1 with stats :=
      { s1.stats with num_poll_tx_events := s1.stats.num_poll_tx_events + 1 } }
  else s1

/-- `clear_rx` (lines 412-418): swap the receive queue with an empty one. -/
def clear_rx (s : IfaceState) : IfaceState :=
  { s with rx_queue := [] }

/-- `set_event_handle` (lines 537-541). -/
def set_event_handle (s : IfaceState) (attached : Bool) : Bool × IfaceState :=
  (true, { s with sem_attached := attached })

/-- `_updateDownStatusFromPollResult` (lines 455-466): on a not-yet-down
interface whose revents carry `POLLERR`, read `SO_ERROR`, latch `down` iff it
is `ENETDOWN` or `ENODEV`, and bump `num_downs`. -/
def _updateDownStatusFromPollResult (s : IfaceState) (revents so_error : ℕ) : IfaceState :=
  if !s.down && (revents &&& POLLERR != 0) then
    { s with down := (so_error == ENETDOWN || so_error == ENODEV),
             stats := { s.stats with num_downs := s.stats.num_downs + 1 } }
  else s

/-- `select` (lines 493-535).  Returns
`(return value, read_select out, write_select out, state)`.  The optional
semaphore wait suspends but does not change the interface state. -/
def select (s : IfaceState) (read_select write_select : Bool)
    (pending_tx : Option CANFrame) (blocking_deadline now_us : ℕ) :
    Bool × Bool × Bool × IfaceState :=
  let need_block0 := !write_select
  let need_block := if read_select && _hasReadyRx s then false else need_block0
  if need_block then
    if s.down then (false, read_select, write_select, s)
    else
      let s1 := { s with pollfd_fd := s.fd,
                         pollfd_events := s.pollfd_events ||| POLLIN,
                         stats := { s.stats with
                           num_rx_poll_req := s.stats.num_rx_poll_req + 1 } }
      let s2 := if _hasReadyTx s1 && write_select then
          { s1 with pollfd_events := s1.pollfd_events ||| POLLOUT,
                    stats := { s1.stats with
                      num_tx_poll_req := s1.stats.num_tx_poll_req + 1 } }
        else s1
      (true, _hasReadyRx s2, !s2.down, s2)
  else (true, _hasReadyRx s, !s.down, s)

/-- A small initialized interface used to exercise the theorems on concrete
inputs: fd 3, kernel tx-queue depth 2, normal mode. -/
def demoState : IfaceState := initState 3 2 OperatingMode.NormalMode

/-- `demoState` with one enqueued TxItem whose deadline (0) has passed. -/
def c4state : IfaceState :=
  { demoState with tx_queue := [{ frame := ⟨1, []⟩, deadline := 0 }] }

/-- `demoState` with one enqueued TxItem whose deadline (5) is ahead. -/
def c3state : IfaceState :=
  { demoState with tx_queue := [{ frame := ⟨1, []⟩, deadline := 5 }] }

/-- A write environment whose socket always reports `EAGAIN` (would-block). -/
def c3env : ℕ → ℕ × WriteEvent := fun _ => (1, ⟨-1, 11⟩)

/-- `demoState` with one pending loopback id `0x123` and one frame handed to
the kernel. -/
def c2state : IfaceState :=
  { demoState with pending_loopback_ids := {0x123}, frames_in_socket_tx_queue := 1 }

/-- The wire form of the spec's S3 frame `{id=0x123, dlc=2, data=[AB CD]}`. -/
def c2wf : can_frame_t := ⟨0x123, 2, [0xAB, 0xCD, 0, 0, 0, 0, 0, 0]⟩

/-- `demoState` with two pending loopback entries for the same id `0x123`
(two loopback-requested transmissions outstanding at once). -/
def c10state : IfaceState :=
  { demoState with pending_loopback_ids := {0x123, 0x123} }

/-- `demoState` with an external event semaphore attached. -/
def c5state : IfaceState := { demoState with sem_attached := true }

/-- `c5state` with one received item queued. -/
def c5stateB : IfaceState :=
  { c5state with rx_queue := [⟨⟨5, []⟩, 1, 0⟩] }

/-- The number of TxItems disposed of by the poll-write loop: each item that
leaves `tx_queue` is counted by exactly one of `tx_success`, `tx_rejected`,
`tx_timedout`. -/
def txDisposed (st : CANStats) : ℕ := st.tx_success + st.tx_rejected + st.tx_timedout

/-- The states reachable from a freshly initialized interface through the
driver's operations. -/
inductive Reachable : IfaceState → Prop where
  | init (fd : Int) (maxq : ℕ) (m : OperatingMode) : Reachable (initState fd maxq m)
  | step_send (s : IfaceState) (f : CANFrame) (d fl : ℕ) (renv : List ReadEnv)
      (wenv : ℕ → ℕ × WriteEvent) :
      Reachable s → Reachable (send s f d fl renv wenv)
  | step_receive (s : IfaceState) (renv : List ReadEnv) :
      Reachable s → Reachable (receive s renv).2
  | step_poll (s : IfaceState) (r w : Bool) (renv : List ReadEnv)
      (wenv : ℕ → ℕ × WriteEvent) :
      Reachable s → Reachable (_poll s r w renv wenv)
  | step_select (s : IfaceState) (rs ws : Bool) (ptx : Option CANFrame) (bd nw : ℕ) :
      Reachable s → Reachable (select s rs ws ptx bd nw).2.2.2
  | step_configureFilters (s : IfaceState) (cfg : Option (List CanFilterConfig)) :
      Reachable s → Reachable (configureFilters s cfg).2
  | step_clear_rx (s : IfaceState) : Reachable s → Reachable (clear_rx s)
  | step_set_event_handle (s : IfaceState) (b : Bool) :
      Reachable s → Reachable (set_event_handle s b).2
  | step_updateDown (s : IfaceState) (revents so_error : ℕ) :
      Reachable s → Reachable (_updateDownStatusFromPollResult s revents so_error)

/-- The C9 invariant: the count of frames handed to the kernel stays within
its bound. -/
def KernelQueueBounded (s : IfaceState) : Prop :=
  s.frames_in_socket_tx_queue ≤ s.max_frames_in_socket_tx_queue

lemma and_two_pow_ne_zero_iff (z k : ℕ) : (z &&& 2 ^ k != 0) = z.testBit k := by
  rw [Nat.and_two_pow]
  cases h : z.testBit k <;> simp [h, Nat.pos_iff_ne_zero.1 (Nat.two_pow_pos k)]

lemma testBit_ite_pow (c : Prop) [Decidable c] (k i : ℕ) :
    (if c then 2 ^ k else 0).testBit i = (decide c && decide (k = i)) := by
  split <;> simp_all [Nat.testBit_two_pow]

/-- The flag-encoded id survives the encode/decode pair: re-assembling the
29-bit base with the three flag bits reproduces any 32-bit id. -/
lemma id_reassemble (z : ℕ) (hz : z < 2 ^ 32) :
    ((((z &&& (2 ^ 29 - 1)) ||| (if (z &&& 2 ^ 31 != 0) = true then 2 ^ 31 else 0)) |||
      (if (z &&& 2 ^ 29 != 0) = true then 2 ^ 29 else 0)) |||
      (if (z &&& 2 ^ 30 != 0) = true then 2 ^ 30 else 0)) = z := by
  apply Nat.eq_of_testBit_eq
  intro i
  simp only [Nat.testBit_or, testBit_ite_pow, Nat.testBit_and,
    Nat.testBit_two_pow_sub_one, and_two_pow_ne_zero_iff]
  by_cases h29 : i < 29
  · have h31 : ¬(31 = i) := by omega
    have h29e : ¬(29 = i) := by omega
    have h30 : ¬(30 = i) := by omega
    simp [h29, h31, h29e, h30]
  · by_cases h32 : i < 32
    · interval_cases i <;> simp
    · have hzb : z.testBit i = false :=
        Nat.testBit_lt_two_pow (lt_of_lt_of_le hz (Nat.pow_le_pow_right (by norm_num) (by omega)))
      have h31 : ¬(31 = i) := by omega
      have h29e : ¬(29 = i) := by omega
      have h30 : ¬(30 = i) := by omega
      simp [h29, h31, h29e, h30, hzb]

lemma MaskExtID_eq : MaskExtID = 2 ^ 29 - 1 := by decide

lemma CAN_EFF_MASK_eq : CAN_EFF_MASK = 2 ^ 29 - 1 := by decide

lemma or_ite_flag (c : Prop) [Decidable c] (x v : ℕ) :
    (if c then x ||| v else x) = x ||| (if c then v else 0) := by
  split <;> simp

/-- The wire id produced by `makeSocketCanFrame` and the full wire record. -/
lemma makeSocketCanFrame_eq (f : CANFrame) (h : ¬8 < f.data.length) :
    makeSocketCanFrame f = some
      ⟨((f.id &&& (2 ^ 29 - 1)) ||| (if (f.id &&& 2 ^ 31 != 0) = true then 2 ^ 31 else 0)) |||
        (if (f.id &&& 2 ^ 29 != 0) = true then 2 ^ 29 else 0) |||
        (if (f.id &&& 2 ^ 30 != 0) = true then 2 ^ 30 else 0),
       f.data.length, f.data ++ List.replicate (8 - f.data.length) 0⟩ := by
  simp only [makeSocketCanFrame, h, if_false, CANFrame.isExtended, CANFrame.isErrorFrame,
    CANFrame.isRemoteTransmissionRequest, FlagEFF, FlagERR, FlagRTR, CAN_EFF_FLAG,
    CAN_ERR_FLAG, CAN_RTR_FLAG, MaskExtID_eq, or_ite_flag]

/-- The logical frame produced by `makeUavcanFrame`, flattened. -/
lemma makeUavcanFrame_eq (wf : can_frame_t) :
    makeUavcanFrame wf =
      ⟨((wf.can_id &&& (2 ^ 29 - 1)) |||
          (if (wf.can_id &&& 2 ^ 31 != 0) = true then 2 ^ 31 else 0)) |||
        (if (wf.can_id &&& 2 ^ 29 != 0) = true then 2 ^ 29 else 0) |||
        (if (wf.can_id &&& 2 ^ 30 != 0) = true then 2 ^ 30 else 0),
       wf.data.take wf.can_dlc⟩ := by
  simp only [makeUavcanFrame, CAN_EFF_MASK_eq, CAN_EFF_FLAG, CAN_ERR_FLAG, CAN_RTR_FLAG,
    FlagEFF, FlagERR, FlagRTR]
  cases h1 : wf.can_id &&& 2 ^ 31 != 0 <;> cases h2 : wf.can_id &&& 2 ^ 29 != 0 <;>
    cases h3 : wf.can_id &&& 2 ^ 30 != 0 <;> simp [h1, h2, h3]

/-- Claim C8: for every representable logical CAN frame `f` (dlc at most 8,
payload significant only up to dlc, 32-bit id), decoding the encoded wire form
yields `f` back, with the extended, error and remote flags and the 29-bit id
preserved; the encoder fails exactly for DLC > 8 and is total otherwise. -/
theorem c8_codec_roundtrip (f : CANFrame) (hid : f.id < 2 ^ 32) :
    (makeSocketCanFrame f = none ↔ 8 < f.data.length) ∧
    (∀ wf, makeSocketCanFrame f = some wf →
       makeUavcanFrame wf = f ∧
       (makeUavcanFrame wf).isExtended = f.isExtended ∧
       (makeUavcanFrame wf).isErrorFrame = f.isErrorFrame ∧
       (makeUavcanFrame wf).isRemoteTransmissionRequest = f.isRemoteTransmissionRequest ∧
       (makeUavcanFrame wf).id &&& MaskExtID = f.id &&& MaskExtID) := by
  constructor
  · unfold makeSocketCanFrame
    split <;> simp_all
  · intro wf hwf
    have hlen : ¬8 < f.data.length := by
      by_contra h
      simp [makeSocketCanFrame, h] at hwf
    rw [makeSocketCanFrame_eq f hlen] at hwf
    have hw := (Option.some_inj.mp hwf).symm
    subst hw
    have hid_enc := id_reassemble f.id hid
    have hmain : makeUavcanFrame
        ⟨((f.id &&& (2 ^ 29 - 1)) ||| (if (f.id &&& 2 ^ 31 != 0) = true then 2 ^ 31 else 0)) |||
          (if (f.id &&& 2 ^ 29 != 0) = true then 2 ^ 29 else 0) |||
          (if (f.id &&& 2 ^ 30 != 0) = true then 2 ^ 30 else 0),
         f.data.length, f.data ++ List.replicate (8 - f.data.length) 0⟩ = f := by
      rw [makeUavcanFrame_eq]
      simp only [hid_enc]
      cases f with
      | mk i d =>
        simp [List.take_left]
    refine ⟨hmain, ?_, ?_, ?_, ?_⟩ <;> rw [hmain]

/-- Witness for C8 at a concrete frame. -/
theorem c8_codec_roundtrip_witness :
    (makeSocketCanFrame ⟨0x123, [0xAB, 0xCD]⟩ = none ↔
      8 < (⟨0x123, [0xAB, 0xCD]⟩ : CANFrame).data.length) ∧
    (∀ wf, makeSocketCanFrame ⟨0x123, [0xAB, 0xCD]⟩ = some wf →
       makeUavcanFrame wf = ⟨0x123, [0xAB, 0xCD]⟩ ∧
       (makeUavcanFrame wf).isExtended = (⟨0x123, [0xAB, 0xCD]⟩ : CANFrame).isExtended ∧
       (makeUavcanFrame wf).isErrorFrame = (⟨0x123, [0xAB, 0xCD]⟩ : CANFrame).isErrorFrame ∧
       (makeUavcanFrame wf).isRemoteTransmissionRequest =
         (⟨0x123, [0xAB, 0xCD]⟩ : CANFrame).isRemoteTransmissionRequest ∧
       (makeUavcanFrame wf).id &&& MaskExtID = (⟨0x123, [0xAB, 0xCD]⟩ : CANFrame).id &&& MaskExtID) :=
  c8_codec_roundtrip ⟨0x123, [0xAB, 0xCD]⟩ (by norm_num)

/-- Claim C1 counterexample: install (through `configureFilters`, in Filtered
mode) the single rule `{id = 1, mask = 0}`.  For the wire frame with id 0 the
claim's condition `(f.id & r.mask) == (r.id & r.mask)` holds (`0 == 0`), yet
the filter bank rejects the frame, because the code compares
`(f.id & r.mask)` against the full `r.id`, not against `r.id & r.mask`. -/
theorem c1_counterexample :
    (configureFilters (initState 3 2 OperatingMode.FilteredMode)
        (some [⟨1, 0⟩])).2.hw_filters_container = [⟨1, 0⟩] ∧
    (∃ r ∈ [(⟨1, 0⟩ : can_filter_t)],
        (0 : ℕ) &&& r.can_mask = r.can_id &&& r.can_mask) ∧
    _checkHWFilters [⟨1, 0⟩] ⟨0, 0, List.replicate 8 0⟩ = false := by
  decide

/-- Claim C1 (amended): for every received wire frame that is not a loopback
echo, with no rules installed `_checkHWFilters` accepts; with rules installed
it accepts iff some installed rule `r` satisfies
`(f.id & r.mask) == r.id` (that is, `(f.id & r.mask) XOR r.id == 0`), rather
than the claimed `(f.id & r.mask) == (r.id & r.mask)`. -/
theorem c1_filter_semantics (filters : List can_filter_t) (wf : can_frame_t) :
    (filters = [] → _checkHWFilters filters wf = true) ∧
    (filters ≠ [] →
      (_checkHWFilters filters wf = true ↔
        ∃ r ∈ filters, wf.can_id &&& r.can_mask = r.can_id)) := by
  constructor
  · intro h
    simp [_checkHWFilters, h]
  · intro h
    simp [_checkHWFilters, List.isEmpty_iff, h, List.any_eq_true, Nat.xor_eq_zero]

/-- Witness for C1 (amended) at the spec's S4 rule `{id=0x200, mask=0x7FF}`. -/
theorem c1_filter_semantics_witness :
    _checkHWFilters [] ⟨0x200, 0, List.replicate 8 0⟩ = true ∧
    (_checkHWFilters [⟨0x200, 0x7FF⟩] ⟨0x200, 0, List.replicate 8 0⟩ = true ↔
      ∃ r ∈ [(⟨0x200, 0x7FF⟩ : can_filter_t)], 0x200 &&& r.can_mask = r.can_id) :=
  ⟨(c1_filter_semantics [] ⟨0x200, 0, List.replicate 8 0⟩).1 rfl,
   (c1_filter_semantics [⟨0x200, 0x7FF⟩] ⟨0x200, 0, List.replicate 8 0⟩).2 (by decide)⟩

lemma pollWriteStep_cases (s : IfaceState) (t : ℕ) (w : Int) :
    ((pollWriteStep s t w).1.tx_queue = s.tx_queue ∧
     txDisposed (pollWriteStep s t w).1.stats = txDisposed s.stats) ∨
    ((pollWriteStep s t w).1.tx_queue = s.tx_queue.drop 1 ∧
     txDisposed (pollWriteStep s t w).1.stats = txDisposed s.stats + 1 ∧
     (pollWriteStep s t w).2 = true) := by
  cases hq : s.tx_queue with
  | nil => left; simp [pollWriteStep, hq]
  | cons tx rest =>
    by_cases hroom : s.frames_in_socket_tx_queue < s.max_frames_in_socket_tx_queue
    · by_cases hd : t ≤ tx.deadline
      · by_cases h1 : w = 1
        · right
          cases hl : tx.loopback <;>
            simp [pollWriteStep, hq, hroom, hd, h1, hl, txDisposed,
              _incrementNumFramesInSocketTxQueue] <;> omega
        · by_cases h0 : w = 0
          · left; simp [pollWriteStep, hq, hroom, hd, h1, h0, txDisposed]
          · right; simp [pollWriteStep, hq, hroom, hd, h1, h0, txDisposed]; omega
      · right; simp [pollWriteStep, hq, hroom, hd, txDisposed]; omega
    · left; simp [pollWriteStep, hq, hroom]

lemma pollWriteGo_drop (env : ℕ → ℕ × WriteEvent) (fuel k : ℕ) (s : IfaceState) :
    ∃ j, (pollWriteGo env fuel k s).tx_queue = s.tx_queue.drop j ∧
      txDisposed (pollWriteGo env fuel k s).stats = txDisposed s.stats + j := by
  induction fuel generalizing k s with
  | zero => exact ⟨0, by simp [pollWriteGo], by simp [pollWriteGo]⟩
  | succ n ih =>
    simp only [pollWriteGo]
    rcases hc : (pollWriteStep s (env k).1 (_write s.fd (env k).2)).2 with _ | _
    · simp only [hc, if_false, Bool.false_eq_true]
      rcases pollWriteStep_cases s (env k).1 (_write s.fd (env k).2) with ⟨hq, hst⟩ | ⟨hq, hst, _⟩
      · exact ⟨0, by simp [hq], by simp [hst]⟩
      · exact ⟨1, hq, hst⟩
    · simp only [hc, if_true]
      rcases ih (k + 1) (pollWriteStep s (env k).1 (_write s.fd (env k).2)).1 with
        ⟨j, hq', hst'⟩
      rcases pollWriteStep_cases s (env k).1 (_write s.fd (env k).2) with ⟨hq, hst⟩ | ⟨hq, hst, _⟩
      · exact ⟨j, by rw [hq'] at *; rw [hq], by rw [hst'] at *; rw [hst]⟩
      · refine ⟨1 + j, ?_, ?_⟩
        · rw [hq', hq, List.drop_drop]
        · rw [hst', hst]; omega

/-- Claim C3: in every execution of the poll-write loop, each TxItem is
removed from `tx_queue` exactly once (the final queue is a suffix of the
initial one and the sum of the success/rejected/timedout counters grows by
exactly the number of removed items), and on a would-block write result the
loop stops with `tx_overflow` incremented and the state otherwise unchanged,
the item remaining at the head of `tx_queue`. -/
theorem c3_tx_queue_discipline (env : ℕ → ℕ × WriteEvent) (fuel k : ℕ) (s : IfaceState)
    (t : ℕ) (w : WriteEvent) (tx : CanTxItem) (rest : List CanTxItem) :
    (∃ j, (pollWriteGo env fuel k s).tx_queue = s.tx_queue.drop j ∧
      txDisposed (pollWriteGo env fuel k s).stats = txDisposed s.stats + j) ∧
    (s.tx_queue = tx :: rest →
     s.frames_in_socket_tx_queue < s.max_frames_in_socket_tx_queue →
     t ≤ tx.deadline → env k = (t, w) → _write s.fd w = 0 →
     pollWriteGo env (fuel + 1) k s =
       { s with stats := { s.stats with tx_overflow := s.stats.tx_overflow + 1 } }) := by
  refine ⟨pollWriteGo_drop env fuel k s, ?_⟩
  intro hq hroom hd henv hw
  simp [pollWriteGo, pollWriteStep, hq, hroom, hd, henv, hw]

/-- Witness for C3: one enqueued frame, a socket reporting `EAGAIN`. -/
theorem c3_tx_queue_discipline_witness :
    (∃ j, (pollWriteGo c3env 0 0 c3state).tx_queue = c3state.tx_queue.drop j ∧
      txDisposed (pollWriteGo c3env 0 0 c3state).stats = txDisposed c3state.stats + j) ∧
    pollWriteGo c3env 1 0 c3state =
      { c3state with stats :=
          { c3state.stats with tx_overflow := c3state.stats.tx_overflow + 1 } } :=
  ⟨(c3_tx_queue_discipline c3env 0 0 c3state 1 ⟨-1, 11⟩
      { frame := ⟨1, []⟩, deadline := 5 } []).1,
   (c3_tx_queue_discipline c3env 0 0 c3state 1 ⟨-1, 11⟩
      { frame := ⟨1, []⟩, deadline := 5 } []).2 rfl (by decide) (by decide) rfl (by decide)⟩

/-- Claim C4: a TxItem dequeued by the poll-write loop whose deadline precedes
the current monotonic clock sample is dropped from `tx_queue` with
`tx_timedout` increased by exactly one, and no socket write is attempted for
it: the iteration's outcome is independent of the write result. -/
theorem c4_expired_item_dropped (s : IfaceState) (t : ℕ) (w w' : Int) (tx : CanTxItem)
    (rest : List CanTxItem) (hq : s.tx_queue = tx :: rest)
    (hroom : s.frames_in_socket_tx_queue < s.max_frames_in_socket_tx_queue)
    (hexp : tx.deadline < t) :
    pollWriteStep s t w =
      ({ s with tx_queue := rest,
                stats := { s.stats with tx_timedout := s.stats.tx_timedout + 1 } }, true) ∧
    pollWriteStep s t w = pollWriteStep s t w' := by
  have hnle : ¬ t ≤ tx.deadline := by omega
  constructor
  · simp [pollWriteStep, hq, hroom, hnle]
  · simp [pollWriteStep, hq, hroom, hnle]

/-- Witness for C4: a frame with deadline 0 polled at time 1. -/
theorem c4_expired_item_dropped_witness :
    (pollWriteStep c4state 1 1 =
      ({ c4state with
          tx_queue := [],
          stats := { c4state.stats with tx_timedout := c4state.stats.tx_timedout + 1 } },
       true)) ∧
    pollWriteStep c4state 1 1 = pollWriteStep c4state 1 0 :=
  c4_expired_item_dropped c4state 1 1 0 { frame := ⟨1, []⟩, deadline := 0 } [] rfl
    (by decide) (by decide)

lemma pollReadStep_loopback (s : IfaceState) (ts : ℕ) (wf : can_frame_t)
    (hfd : ¬s.fd < 0) :
    pollReadStep s ⟨ts, .osFrame wf true⟩ =
      (if 0 < s.pending_loopback_ids.count (makeUavcanFrame wf).id then
        ({ s with
            frames_in_socket_tx_queue := s.frames_in_socket_tx_queue -
              (if 0 < s.frames_in_socket_tx_queue then 1 else 0),
            pending_loopback_ids :=
              s.pending_loopback_ids.filter (fun i => ¬i = (makeUavcanFrame wf).id),
            rx_queue := s.rx_queue ++ [⟨makeUavcanFrame wf, ts, LoopbackFlag⟩],
            stats := { s.stats with tx_confirmed := s.stats.tx_confirmed + 1,
                                    rx_received := s.stats.rx_received + 1 } },
         some true)
      else
        ({ s with
            frames_in_socket_tx_queue := s.frames_in_socket_tx_queue -
              (if 0 < s.frames_in_socket_tx_queue then 1 else 0),
            stats := { s.stats with tx_confirmed := s.stats.tx_confirmed + 1 } },
         none)) := by
  by_cases hcnt : 0 < s.pending_loopback_ids.count (makeUavcanFrame wf).id <;>
    by_cases hfr : 0 < s.frames_in_socket_tx_queue <;>
      simp [pollReadStep, _read, hfd, _confirmSentFrame, _wasInPendingLoopbackSet,
        hcnt, hfr]

/-- Claim C2: a loopback echo read during the poll-read loop bypasses the
filter bank (the step's outcome is the same whatever rules are installed),
decrements `frames_in_socket_tx_queue` when it was positive, increments
`tx_confirmed`, builds the RxItem with the Loopback flag, and accepts the
frame into `rx_queue` iff its id was present in `pending_loopback_ids`, that
id then being removed from the set. -/
theorem c2_loopback_reconciliation (s : IfaceState) (ts : ℕ) (wf : can_frame_t)
    (F : List can_filter_t) (hfd : ¬s.fd < 0) :
    pollReadStep { s with hw_filters_container := F } ⟨ts, .osFrame wf true⟩ =
      ({ (pollReadStep s ⟨ts, .osFrame wf true⟩).1 with hw_filters_container := F },
       (pollReadStep s ⟨ts, .osFrame wf true⟩).2) ∧
    (pollReadStep s ⟨ts, .osFrame wf true⟩).1.frames_in_socket_tx_queue =
      s.frames_in_socket_tx_queue - (if 0 < s.frames_in_socket_tx_queue then 1 else 0) ∧
    (pollReadStep s ⟨ts, .osFrame wf true⟩).1.stats.tx_confirmed =
      s.stats.tx_confirmed + 1 ∧
    (0 < s.pending_loopback_ids.count (makeUavcanFrame wf).id →
      (pollReadStep s ⟨ts, .osFrame wf true⟩).2 = some true ∧
      (pollReadStep s ⟨ts, .osFrame wf true⟩).1.rx_queue =
        s.rx_queue ++ [⟨makeUavcanFrame wf, ts, LoopbackFlag⟩] ∧
      (pollReadStep s ⟨ts, .osFrame wf true⟩).1.pending_loopback_ids.count
        (makeUavcanFrame wf).id = 0) ∧
    (¬0 < s.pending_loopback_ids.count (makeUavcanFrame wf).id →
      (pollReadStep s ⟨ts, .osFrame wf true⟩).2 = none ∧
      (pollReadStep s ⟨ts, .osFrame wf true⟩).1.rx_queue = s.rx_queue ∧
      (pollReadStep s ⟨ts, .osFrame wf true⟩).1.pending_loopback_ids =
        s.pending_loopback_ids) := by
  by_cases hcnt : 0 < s.pending_loopback_ids.count (makeUavcanFrame wf).id <;>
    by_cases hfr : 0 < s.frames_in_socket_tx_queue <;>
      simp [pollReadStep, _read, hfd, _confirmSentFrame, _wasInPendingLoopbackSet,
        hcnt, hfr, Multiset.count_filter]

/-- Witness for C2 at the spec's S3 loopback scenario. -/
theorem c2_loopback_reconciliation_witness :
    pollReadStep { c2state with hw_filters_container := [⟨1, 2⟩] }
        ⟨7, .osFrame c2wf true⟩ =
      ({ (pollReadStep c2state ⟨7, .osFrame c2wf true⟩).1 with
          hw_filters_container := [⟨1, 2⟩] },
       (pollReadStep c2state ⟨7, .osFrame c2wf true⟩).2) ∧
    (pollReadStep c2state ⟨7, .osFrame c2wf true⟩).1.frames_in_socket_tx_queue =
      c2state.frames_in_socket_tx_queue -
        (if 0 < c2state.frames_in_socket_tx_queue then 1 else 0) ∧
    (pollReadStep c2state ⟨7, .osFrame c2wf true⟩).1.stats.tx_confirmed =
      c2state.stats.tx_confirmed + 1 ∧
    (0 < c2state.pending_loopback_ids.count (makeUavcanFrame c2wf).id →
      (pollReadStep c2state ⟨7, .osFrame c2wf true⟩).2 = some true ∧
      (pollReadStep c2state ⟨7, .osFrame c2wf true⟩).1.rx_queue =
        c2state.rx_queue ++ [⟨makeUavcanFrame c2wf, 7, LoopbackFlag⟩] ∧
      (pollReadStep c2state ⟨7, .osFrame c2wf true⟩).1.pending_loopback_ids.count
        (makeUavcanFrame c2wf).id = 0) ∧
    (¬0 < c2state.pending_loopback_ids.count (makeUavcanFrame c2wf).id →
      (pollReadStep c2state ⟨7, .osFrame c2wf true⟩).2 = none ∧
      (pollReadStep c2state ⟨7, .osFrame c2wf true⟩).1.rx_queue = c2state.rx_queue ∧
      (pollReadStep c2state ⟨7, .osFrame c2wf true⟩).1.pending_loopback_ids =
        c2state.pending_loopback_ids) :=
  c2_loopback_reconciliation c2state 7 c2wf [⟨1, 2⟩] (by decide)

/-- Claim C10: with two loopback transmissions of the same id outstanding
(`pending_loopback_ids` holds the id twice), the first matching echo is
accepted and erases every pending entry for that id, so a second echo with
the same id is not accepted into `rx_queue`, although `tx_confirmed` is still
incremented for it. -/
theorem c10_duplicate_loopback_ids (s : IfaceState) (ts tsb : ℕ) (wf : can_frame_t)
    (hfd : ¬s.fd < 0)
    (hcount : s.pending_loopback_ids.count (makeUavcanFrame wf).id = 2) :
    (pollReadStep s ⟨ts, .osFrame wf true⟩).2 = some true ∧
    (pollReadStep s ⟨ts, .osFrame wf true⟩).1.pending_loopback_ids.count
      (makeUavcanFrame wf).id = 0 ∧
    (pollReadStep (pollReadStep s ⟨ts, .osFrame wf true⟩).1 ⟨tsb, .osFrame wf true⟩).2 =
      none ∧
    (pollReadStep (pollReadStep s ⟨ts, .osFrame wf true⟩).1
      ⟨tsb, .osFrame wf true⟩).1.rx_queue =
      (pollReadStep s ⟨ts, .osFrame wf true⟩).1.rx_queue ∧
    (pollReadStep (pollReadStep s ⟨ts, .osFrame wf true⟩).1
      ⟨tsb, .osFrame wf true⟩).1.stats.tx_confirmed = s.stats.tx_confirmed + 2 := by
  have hcnt : 0 < s.pending_loopback_ids.count (makeUavcanFrame wf).id := by omega
  rw [pollReadStep_loopback s ts wf hfd]
  simp only [hcnt, if_true]
  have hzero : ∀ m : Multiset ℕ,
      (m.filter (fun i => ¬i = (makeUavcanFrame wf).id)).count (makeUavcanFrame wf).id = 0 := by
    intro m
    simp [Multiset.count_filter]
  rw [pollReadStep_loopback _ tsb wf (by simpa using hfd)]
  simp [hzero]

/-- Witness for C10: two pending entries for id `0x123`, two echoes. -/
theorem c10_duplicate_loopback_ids_witness :
    (pollReadStep c10state ⟨1, .osFrame c2wf true⟩).2 = some true ∧
    (pollReadStep c10state ⟨1, .osFrame c2wf true⟩).1.pending_loopback_ids.count
      (makeUavcanFrame c2wf).id = 0 ∧
    (pollReadStep (pollReadStep c10state ⟨1, .osFrame c2wf true⟩).1
      ⟨2, .osFrame c2wf true⟩).2 = none ∧
    (pollReadStep (pollReadStep c10state ⟨1, .osFrame c2wf true⟩).1
      ⟨2, .osFrame c2wf true⟩).1.rx_queue =
      (pollReadStep c10state ⟨1, .osFrame c2wf true⟩).1.rx_queue ∧
    (pollReadStep (pollReadStep c10state ⟨1, .osFrame c2wf true⟩).1
      ⟨2, .osFrame c2wf true⟩).1.stats.tx_confirmed =
      c10state.stats.tx_confirmed + 2 :=
  c10_duplicate_loopback_ids c10state 1 2 c2wf (by decide) (by decide)

lemma pollReadStep_sem (s : IfaceState) (e : ReadEnv) :
    (pollReadStep s e).1.sem_signals = s.sem_signals ∧
    (pollReadStep s e).1.sem_attached = s.sem_attached := by
  cases hr : _read s.fd s.hw_filters_container e.ev with
  | err => simp [pollReadStep, hr]
  | empty => simp [pollReadStep, hr]
  | got fr lb =>
    cases lb <;> by_cases hcnt : 0 < s.pending_loopback_ids.count fr.id <;>
      by_cases hfr : 0 < s.frames_in_socket_tx_queue <;>
        simp [pollReadStep, hr, _confirmSentFrame, _wasInPendingLoopbackSet, hcnt, hfr]

lemma pollReadGo_sem (renv : List ReadEnv) (s : IfaceState) :
    (pollReadGo s renv).1.sem_signals = s.sem_signals ∧
    (pollReadGo s renv).1.sem_attached = s.sem_attached := by
  induction renv generalizing s with
  | nil => simp [pollReadGo]
  | cons e rest ih =>
    have hsem := pollReadStep_sem s e
    rcases hs : pollReadStep s e with ⟨s1, ob⟩
    rw [hs] at hsem
    cases ob with
    | some b => simpa [pollReadGo, hs] using hsem
    | none =>
      simp only [pollReadGo, hs]
      exact ⟨(ih s1).1.trans hsem.1, (ih s1).2.trans hsem.2⟩

/-- Claim C5 counterexample: with an event semaphore attached, the poll-read
loop accepts a frame (rx_queue grows, `rx_received` is incremented) yet no
semaphore signal is issued as part of the enqueue step: `_pollRead` never
signals; only `receive` does. -/
theorem c5_counterexample :
    c5state.sem_attached = true ∧
    (pollReadStep c5state ⟨42, .osFrame c2wf false⟩).2 = some true ∧
    (pollReadStep c5state ⟨42, .osFrame c2wf false⟩).1.rx_queue.length =
      c5state.rx_queue.length + 1 ∧
    (pollReadStep c5state ⟨42, .osFrame c2wf false⟩).1.stats.rx_received =
      c5state.stats.rx_received + 1 ∧
    (pollReadStep c5state ⟨42, .osFrame c2wf false⟩).1.sem_signals =
      c5state.sem_signals := by
  decide

/-- Claim C5 (amended): whenever the poll-read loop accepts a frame it pushes
it into `rx_queue` and increments `rx_received`, but it does not signal the
event semaphore; the semaphore is signaled by `receive` (when attached) as a
frame is returned, not on RX enqueue. -/
theorem c5_enqueue_and_signal :
    (∀ (s : IfaceState) (e : ReadEnv),
       (pollReadStep s e).2 = some true →
       (pollReadStep s e).1.rx_queue.length = s.rx_queue.length + 1 ∧
       (pollReadStep s e).1.stats.rx_received = s.stats.rx_received + 1 ∧
       (pollReadStep s e).1.sem_signals = s.sem_signals) ∧
    (∀ (s : IfaceState) (renv : List ReadEnv) (rx : CanRxItem) (s1 : IfaceState),
       receive s renv = (some rx, s1) → s.sem_attached = true →
       s1.sem_signals = s.sem_signals + 1) := by
  constructor
  · intro s e hacc
    cases hr : _read s.fd s.hw_filters_container e.ev with
    | err => simp [pollReadStep, hr] at hacc
    | empty => simp [pollReadStep, hr] at hacc
    | got fr lb =>
      cases lb with
      | false => simp [pollReadStep, hr]
      | true =>
        by_cases hcnt : 0 < s.pending_loopback_ids.count fr.id
        · by_cases hfr : 0 < s.frames_in_socket_tx_queue <;>
            simp [pollReadStep, hr, _confirmSentFrame, _wasInPendingLoopbackSet, hcnt, hfr]
        · by_cases hfr : 0 < s.frames_in_socket_tx_queue <;>
            simp [pollReadStep, hr, _confirmSentFrame, _wasInPendingLoopbackSet,
              hcnt, hfr] at hacc
  · intro s renv rx s1 h hsem
    have hsp := pollReadGo_sem renv s
    simp only [receive] at h
    set t := if s.rx_queue.isEmpty = true then (_pollRead s renv).1 else s with ht
    have hts : t.sem_signals = s.sem_signals ∧ t.sem_attached = s.sem_attached := by
      rw [ht]
      split
      · exact hsp
      · exact ⟨rfl, rfl⟩
    cases hq : t.rx_queue with
    | nil => rw [hq] at h; simp at h
    | cons r rest =>
      rw [hq] at h
      simp only [hts.2, hsem, if_true] at h
      have h1 := (Prod.mk.injEq _ _ _ _).mp h
      rw [← h1.2]
      simp [hts.1]

/-- Witness for C5 (amended): a concrete accepted frame and a concrete
`receive` with a semaphore attached. -/
theorem c5_enqueue_and_signal_witness :
    ((pollReadStep c5state ⟨3, .osFrame c2wf false⟩).1.rx_queue.length =
       c5state.rx_queue.length + 1 ∧
     (pollReadStep c5state ⟨3, .osFrame c2wf false⟩).1.stats.rx_received =
       c5state.stats.rx_received + 1 ∧
     (pollReadStep c5state ⟨3, .osFrame c2wf false⟩).1.sem_signals =
       c5state.sem_signals) ∧
    (receive c5stateB []).2.sem_signals = c5stateB.sem_signals + 1 :=
  ⟨c5_enqueue_and_signal.1 c5state ⟨3, .osFrame c2wf false⟩ (by decide),
   c5_enqueue_and_signal.2 c5stateB [] ⟨⟨5, []⟩, 1, 0⟩ (receive c5stateB []).2
     (by decide) (by decide)⟩

/-- Claim C6 counterexample: a `POLLERR` with a non-fatal socket error
(`EIO = 5`) bumps `num_downs` to 1 while `down` stays false, so `num_downs`
can reach 1 without a fatal (`ENETDOWN`/`ENODEV`) error. -/
theorem c6_counterexample :
    (_updateDownStatusFromPollResult demoState POLLERR 5).stats.num_downs = 1 ∧
    (_updateDownStatusFromPollResult demoState POLLERR 5).down = false ∧
    ¬(5 = ENETDOWN ∨ 5 = ENODEV) := by
  decide

/-- Claim C6 (amended): evaluating a pollfd whose revents carry `POLLERR` on a
not-yet-down interface latches `down` iff the kernel error is `ENETDOWN` or
`ENODEV`, and bumps `num_downs` by one on every such evaluation regardless of
the error; without `POLLERR` (or when already down) the state is unchanged. -/
theorem c6_down_latch (s : IfaceState) (revents so_error : ℕ) :
    (s.down = false → revents &&& POLLERR ≠ 0 →
      _updateDownStatusFromPollResult s revents so_error =
        { s with down := (so_error == ENETDOWN || so_error == ENODEV),
                 stats := { s.stats with num_downs := s.stats.num_downs + 1 } } ∧
      ((_updateDownStatusFromPollResult s revents so_error).down = true ↔
        (so_error = ENETDOWN ∨ so_error = ENODEV))) ∧
    (s.down = true ∨ revents &&& POLLERR = 0 →
      _updateDownStatusFromPollResult s revents so_error = s) := by
  constructor
  · intro hdown herr
    constructor
    · simp [_updateDownStatusFromPollResult, hdown, herr]
    · simp [_updateDownStatusFromPollResult, hdown, herr]
  · intro h
    rcases h with h | h <;> simp [_updateDownStatusFromPollResult, h]

/-- Witness for C6 (amended): `ENETDOWN` through `POLLERR` on `demoState`. -/
theorem c6_down_latch_witness :
    (_updateDownStatusFromPollResult demoState POLLERR ENETDOWN =
      { demoState with
          down := (ENETDOWN == ENETDOWN || ENETDOWN == ENODEV),
          stats := { demoState.stats with num_downs := demoState.stats.num_downs + 1 } } ∧
     ((_updateDownStatusFromPollResult demoState POLLERR ENETDOWN).down = true ↔
       (ENETDOWN = ENETDOWN ∨ ENETDOWN = ENODEV))) :=
  (c6_down_latch demoState POLLERR ENETDOWN).1 (by decide) (by decide)

/-- Claim C7: `select` returns false iff blocking was required (write
readiness not requested and no frame already queued when read readiness is
requested) and the interface is down; on every true return the by-reference
outputs are `read_select = (rx_queue non-empty)` and
`write_select = (not down)`; the `pending_tx` argument never affects the
call's outcome. -/
theorem c7_select_contract (s : IfaceState) (rs ws : Bool) (ptx ptxb : Option CANFrame)
    (bd now_us : ℕ) :
    ((select s rs ws ptx bd now_us).1 = false ↔
      (ws = false ∧ (rs = false ∨ s.rx_queue = []) ∧ s.down = true)) ∧
    ((select s rs ws ptx bd now_us).1 = true →
      (select s rs ws ptx bd now_us).2.1 = !s.rx_queue.isEmpty ∧
      (select s rs ws ptx bd now_us).2.2.1 = !s.down) ∧
    select s rs ws ptx bd now_us = select s rs ws ptxb bd now_us := by
  refine ⟨?_, ?_, rfl⟩ <;>
    cases ws <;> cases rs <;> cases hd : s.down <;>
      by_cases hrx : s.rx_queue = [] <;>
        simp [select, _hasReadyRx, hd, hrx, List.isEmpty_iff]

/-- Witness for C7: read-only select on a fresh (not-down, empty-queue)
interface. -/
theorem c7_select_contract_witness :
    ((select demoState true false none 0 0).1 = false ↔
      (false = false ∧ (true = false ∨ demoState.rx_queue = []) ∧
        demoState.down = true)) ∧
    ((select demoState true false none 0 0).2.1 = !demoState.rx_queue.isEmpty ∧
     (select demoState true false none 0 0).2.2.1 = !demoState.down) ∧
    select demoState true false none 0 0 = select demoState true false (some ⟨1, []⟩) 0 0 :=
  ⟨(c7_select_contract demoState true false none (some ⟨1, []⟩) 0 0).1,
   (c7_select_contract demoState true false none (some ⟨1, []⟩) 0 0).2.1 (by decide),
   (c7_select_contract demoState true false none (some ⟨1, []⟩) 0 0).2.2⟩

lemma pollWriteStep_bound (s : IfaceState) (t : ℕ) (w : Int)
    (h : KernelQueueBounded s) : KernelQueueBounded (pollWriteStep s t w).1 := by
  unfold KernelQueueBounded at *
  cases hq : s.tx_queue with
  | nil => simpa [pollWriteStep, hq]
  | cons tx rest =>
    by_cases hroom : s.frames_in_socket_tx_queue < s.max_frames_in_socket_tx_queue
    · by_cases hd : t ≤ tx.deadline
      · by_cases h1 : w = 1
        · cases hl : tx.loopback <;>
            simp [pollWriteStep, hq, hroom, hd, h1, hl,
              _incrementNumFramesInSocketTxQueue] <;> omega
        · by_cases h0 : w = 0 <;> simpa [pollWriteStep, hq, hroom, hd, h1, h0]
      · simpa [pollWriteStep, hq, hroom, hd]
    · simpa [pollWriteStep, hq, hroom]

lemma pollWriteGo_bound (env : ℕ → ℕ × WriteEvent) (fuel k : ℕ) (s : IfaceState)
    (h : KernelQueueBounded s) : KernelQueueBounded (pollWriteGo env fuel k s) := by
  induction fuel generalizing k s with
  | zero => simpa [pollWriteGo]
  | succ n ih =>
    simp only [pollWriteGo]
    rcases hc : (pollWriteStep s (env k).1 (_write s.fd (env k).2)).2 with _ | _ <;>
      simp only [hc, if_true, if_false, Bool.false_eq_true]
    · exact pollWriteStep_bound s _ _ h
    · exact ih (k + 1) _ (pollWriteStep_bound s _ _ h)

lemma pollReadStep_bound (s : IfaceState) (e : ReadEnv)
    (h : KernelQueueBounded s) : KernelQueueBounded (pollReadStep s e).1 := by
  unfold KernelQueueBounded at *
  cases hr : _read s.fd s.hw_filters_container e.ev with
  | err => simpa [pollReadStep, hr]
  | empty => simpa [pollReadStep, hr]
  | got fr lb =>
    cases lb <;> by_cases hcnt : 0 < s.pending_loopback_ids.count fr.id <;>
      by_cases hfr : 0 < s.frames_in_socket_tx_queue <;>
        simp [pollReadStep, hr, _confirmSentFrame, _wasInPendingLoopbackSet,
          hcnt, hfr] <;> omega

lemma pollReadGo_bound (renv : List ReadEnv) (s : IfaceState)
    (h : KernelQueueBounded s) : KernelQueueBounded (pollReadGo s renv).1 := by
  induction renv generalizing s with
  | nil => simpa [pollReadGo]
  | cons e rest ih =>
    have hstep := pollReadStep_bound s e h
    rcases hs : pollReadStep s e with ⟨s1, ob⟩
    rw [hs] at hstep
    cases ob with
    | some b => simpa [pollReadGo, hs] using hstep
    | none => simp only [pollReadGo, hs]; exact ih s1 hstep

lemma send_bound (s : IfaceState) (f : CANFrame) (d fl : ℕ) (renv : List ReadEnv)
    (wenv : ℕ → ℕ × WriteEvent) (h : KernelQueueBounded s) :
    KernelQueueBounded (send s f d fl renv wenv) := by
  unfold send _pollWrite _pollRead
  exact pollWriteGo_bound wenv _ 0 _ (pollReadGo_bound renv _ h)

lemma receive_bound (s : IfaceState) (renv : List ReadEnv)
    (h : KernelQueueBounded s) : KernelQueueBounded (receive s renv).2 := by
  unfold receive _pollRead
  have ht : KernelQueueBounded
      (if s.rx_queue.isEmpty = true then (pollReadGo s renv).1 else s) := by
    split
    · exact pollReadGo_bound renv s h
    · exact h
  dsimp only
  generalize htg : (if s.rx_queue.isEmpty = true then (pollReadGo s renv).1 else s) = t
  rw [htg] at ht
  unfold KernelQueueBounded at *
  rcases hq : t.rx_queue with _ | ⟨r, rest⟩ <;> simp only [hq] <;> [skip; split] <;>
    simpa using ht

lemma poll_bound (s : IfaceState) (r w : Bool) (renv : List ReadEnv)
    (wenv : ℕ → ℕ × WriteEvent) (h : KernelQueueBounded s) :
    KernelQueueBounded (_poll s r w renv wenv) := by
  unfold _poll _pollRead _pollWrite
  dsimp only
  have h1 : KernelQueueBounded (if r = true then
      (pollReadGo { s with stats :=
        { s.stats with num_poll_rx_events := s.stats.num_poll_rx_events + 1 } } renv).1
    else s) := by
    split
    · exact pollReadGo_bound renv _ h
    · exact h
  split
  · refine pollWriteGo_bound wenv _ 0 _ ?_
    unfold KernelQueueBounded at h1 ⊢
    simpa using h1
  · exact h1

lemma select_bound (s : IfaceState) (rs ws : Bool) (ptx : Option CANFrame) (bd nw : ℕ)
    (h : KernelQueueBounded s) : KernelQueueBounded (select s rs ws ptx bd nw).2.2.2 := by
  unfold KernelQueueBounded at *
  cases ws <;> cases rs <;> cases hd : s.down <;> by_cases hrx : s.rx_queue = [] <;>
    simp [select, _hasReadyRx, hd, hrx, h]

lemma updateDown_bound (s : IfaceState) (revents so_error : ℕ)
    (h : KernelQueueBounded s) :
    KernelQueueBounded (_updateDownStatusFromPollResult s revents so_error) := by
  unfold KernelQueueBounded at *
  unfold _updateDownStatusFromPollResult
  split <;> simpa

/-- Claim C9: in every reachable state, `frames_in_socket_tx_queue` lies in
`[0, max_frames_in_socket_tx_queue]`: the poll-write loop increments it only
after re-checking `_hasReadyTx` (which requires it to be below the maximum)
and the loopback confirmation decrements it only when positive. -/
theorem c9_kernel_queue_in_bounds (s : IfaceState) (h : Reachable s) :
    0 ≤ s.frames_in_socket_tx_queue ∧
    s.frames_in_socket_tx_queue ≤ s.max_frames_in_socket_tx_queue := by
  refine ⟨Nat.zero_le _, ?_⟩
  induction h with
  | init fd maxq m => simp [initState, KernelQueueBounded]
  | step_send s f d fl renv wenv _ ih => exact send_bound s f d fl renv wenv ih
  | step_receive s renv _ ih => exact receive_bound s renv ih
  | step_poll s r w renv wenv _ ih => exact poll_bound s r w renv wenv ih
  | step_select s rs ws ptx bd nw _ ih => exact select_bound s rs ws ptx bd nw ih
  | step_configureFilters s cfg _ ih =>
    unfold configureFilters
    cases cfg with
    | none => exact ih
    | some l => dsimp only; split <;> exact ih
  | step_clear_rx s _ ih => exact ih
  | step_set_event_handle s b _ ih => exact ih
  | step_updateDown s revents so_error _ ih => exact updateDown_bound s revents so_error ih

/-- Witness for C9 at the freshly initialized `demoState`. -/
theorem c9_kernel_queue_in_bounds_witness :
    0 ≤ (initState 3 2 OperatingMode.NormalMode).frames_in_socket_tx_queue ∧
    (initState 3 2 OperatingMode.NormalMode).frames_in_socket_tx_queue ≤
      (initState 3 2 OperatingMode.NormalMode).max_frames_in_socket_tx_queue :=
  c9_kernel_queue_in_bounds (initState 3 2 OperatingMode.NormalMode)
    (Reachable.init 3 2 OperatingMode.NormalMode)

end CANSocket
